import Mathlib

/-!
Verification development for the JWL merge engine
(`src/public/workers/merge-worker.js` and `src/lib/merge/merge-logic.ts`).

The worker manipulates SQLite rows as JavaScript arrays of values that are
either `null`, a number, or a string.  We embed such values as `SqlValue`
and translate the merge functions directly from the source, preserving the
JavaScript semantics they rely on (falsiness of `0` and `""` in `x || 'NULL'`,
`Map.set` overwriting, strict equality, and so on).
-/

set_option autoImplicit false

namespace JwlMerge

/-- A SQLite value as seen by the worker through sql.js: `null`, an integer,
or a string.  (The databases involved store only integers and text in the
columns the merge logic consults.) -/
inductive SqlValue where
  | null : SqlValue
  | int : Int → SqlValue
  | text : String → SqlValue
  deriving DecidableEq, Repr

/-- JavaScript falsiness for an embedded SQL value: `null`, the number `0`
and the empty string are falsy. -/
def SqlValue.jsFalsy : SqlValue → Bool
  | .null => true
  | .int n => n == 0
  | .text s => s == ""

/-- JavaScript stringification of a value as it appears inside
`Array.prototype.join`: numbers print in decimal, strings are themselves,
and `null` renders as the empty string. -/
def SqlValue.jsToString : SqlValue → String
  | .null => ""
  | .int n => toString n
  | .text s => s

/-- The idiom `v || 'NULL'` from `createLocationConstraintSignature`:
a falsy value (including the number `0` and `""`) yields the string
`"NULL"`, any other value is stringified. -/
def jsOrNullStr (v : SqlValue) : String :=
  if v.jsFalsy then "NULL" else v.jsToString

/-- A row of the `Location` table, with the columns the worker reads.
`locationId` is the primary key; the remaining fields are the columns
consulted by `createLocationConstraintSignature` plus `title` (present in
the schema, ignored by the merge logic). -/
structure LocationRow where
  locationId : Int
  bookNumber : SqlValue
  chapterNumber : SqlValue
  documentId : SqlValue
  track : SqlValue
  issueTagNumber : SqlValue
  keySymbol : SqlValue
  mepsLanguage : SqlValue
  type : SqlValue
  title : SqlValue
  deriving DecidableEq, Repr

/-- Normalisation of `MepsLanguage` from `createLocationConstraintSignature`:
`(mepsLanguage === null || mepsLanguage === 0) ? '0' : String(mepsLanguage)`. -/
def normalizedMepsLang (v : SqlValue) : String :=
  if v = .null ∨ v = .int 0 then "0" else v.jsToString

/-- Decides whether a Location row is treated as a Bible chapter by
`createLocationConstraintSignature`: the JavaScript test
`type === 0 && bookNumber !== null && bookNumber !== 0 &&
chapterNumber !== null && chapterNumber !== 0`. -/
def isBibleChapterRow (r : LocationRow) : Prop :=
  r.type = .int 0 ∧ r.bookNumber ≠ .null ∧ r.bookNumber ≠ .int 0 ∧
    r.chapterNumber ≠ .null ∧ r.chapterNumber ≠ .int 0

instance (r : LocationRow) : Decidable (isBibleChapterRow r) := by
  unfold isBibleChapterRow; infer_instance

/-- Embedding of `createLocationConstraintSignature` (merge-worker.js,
lines 81-120).  Bible-chapter rows use the five-column constraint, all
other rows the six-column publication constraint; every `v || 'NULL'`
of the source is rendered by `jsOrNullStr`, so the number `0` and the
empty string also produce `"NULL"`. -/
def createLocationConstraintSignature (r : LocationRow) : String :=
  if isBibleChapterRow r then
    String.intercalate "|"
      [r.bookNumber.jsToString, r.chapterNumber.jsToString,
        jsOrNullStr r.keySymbol, normalizedMepsLang r.mepsLanguage,
        jsOrNullStr r.type]
  else
    String.intercalate "|"
      [jsOrNullStr r.keySymbol, jsOrNullStr r.issueTagNumber,
        normalizedMepsLang r.mepsLanguage, jsOrNullStr r.documentId,
        jsOrNullStr r.track, jsOrNullStr r.type]

/-- SQLite rendering of a value inside the validator's string concatenation:
an integer concatenates as its decimal text, text as itself, and `NULL`
makes the whole concatenation `NULL` (`none`). -/
def SqlValue.sqlText : SqlValue → Option String
  | .null => none
  | .int n => some (toString n)
  | .text s => some s

/-- SQLite `||` concatenation over possibly-`NULL` pieces: `NULL` absorbs. -/
def sqlConcat (parts : List (Option String)) : Option String :=
  parts.foldl (fun acc p =>
    match acc, p with
    | some a, some b => some (a ++ b)
    | _, _ => none) (some "")

/-- SQLite `COALESCE(v, 'NULL')` as used by the validator: only a genuine
`NULL` becomes the string `"NULL"`; the number `0` renders `"0"`. -/
def sqlCoalesceNullStr (v : SqlValue) : Option String :=
  match v with
  | .null => some "NULL"
  | v => v.sqlText

/-- Embedding of the `ConstraintSignature` CASE expression of
`validateMergeIntegrity` (merge-worker.js, lines 516-536).  This is the
signature the post-merge duplicate check computes in SQL; note it renders
a zero `Type`, `Track`, `DocumentId` or `IssueTagNumber` as `"0"`,
unlike `createLocationConstraintSignature`. -/
def validatorConstraintSignature (r : LocationRow) : Option String :=
  if isBibleChapterRow r then
    sqlConcat [r.bookNumber.sqlText, some "|", r.chapterNumber.sqlText, some "|",
      sqlCoalesceNullStr r.keySymbol, some "|",
      some (normalizedMepsLang r.mepsLanguage), some "|", r.type.sqlText]
  else
    sqlConcat [sqlCoalesceNullStr r.keySymbol, some "|",
      sqlCoalesceNullStr r.issueTagNumber, some "|",
      some (normalizedMepsLang r.mepsLanguage), some "|",
      sqlCoalesceNullStr r.documentId, some "|",
      sqlCoalesceNullStr r.track, some "|", r.type.sqlText]

/-! ## The ID mapping registry (`idMappings`)

`idMappings` in the worker is a global `Map: tableName -> Map(originalId -> newId)`.
We embed one inner map as an association list on which `set` overwrites the
previous binding of the key (JavaScript `Map.set` semantics): the list always
holds at most one pair per key, so its length is the `Map`'s `size`. -/

/-- JavaScript `Map.set` on an `Int → Int` map embedded as an association
list with at most one binding per key: the new binding replaces any old one. -/
def mapSet (m : List (Int × Int)) (k v : Int) : List (Int × Int) :=
  (k, v) :: m.filter (fun p => p.1 != k)

/-- JavaScript `Map.get`, returning the latest binding of the key. -/
def mapGet (m : List (Int × Int)) (k : Int) : Option Int :=
  List.lookup k m

/-! ## Location merge (`mergeLocationData`, merge-worker.js lines 659-794)

Phase 1 reads every `Location` row of every source (in source order, rows
in `ORDER BY LocationId` order — we take each source's row list as that
query result) and wraps it in a `locationInfo` record carrying its source and
original id.  The first `locationInfo` with a given constraint signature is
the signature's *first occurrence*; in the source this is object identity
against `globalContentMap.get(sig)`, which we render as "my index equals the
least index with my signature".

Phase 2 walks the collected list again: duplicates only record an id
mapping to the first occurrence's final id; first occurrences get an id
free of previously used ids and are inserted.  The insert is a plain
`INSERT` whose failure is rethrown, aborting the merge; we expose the
database's acceptance of a row as the parameter `insertOk` and log the
phase's observable actions in a trace. -/

/-- One collected `locationInfo` of phase 1: the row, the index of the
source database it came from, and its original `LocationId`. -/
structure LocInfo where
  row : LocationRow
  sourceIdx : Nat
  originalLocationId : Int
  deriving DecidableEq, Repr

/-- Phase 1 collection: every row of every source, in order, wrapped as a
`locationInfo`. -/
def collectAllLocations (sources : List (List LocationRow)) : List LocInfo :=
  (sources.enum.map (fun p => p.2.map
    (fun r => LocInfo.mk r p.1 r.locationId))).flatten

/-- Index of the first occurrence of a signature in the collected list
(`globalContentMap` maps each signature to the `locationInfo` at this
index). -/
def sigFirstIdx (all : List LocInfo) (s : String) : Nat :=
  all.findIdx (fun info => createLocationConstraintSignature info.row == s)

/-- Observable actions of phase 2.  `readBack` would be emitted by a
read-back verification query on the target after an insert; phase 2 of the
source contains no such query, so no rule of `phase2Step` emits it — the
constructor exists so that its absence can be stated. -/
inductive LocEvent where
  | insertOk : Int → LocEvent
  | insertFail : Int → LocEvent
  | readBack : Int → LocEvent
  | mapRecord : Int → Int → LocEvent
  deriving DecidableEq, Repr

/-- Whether an event is a read-back verification query. -/
def LocEvent.isReadBack : LocEvent → Bool
  | .readBack _ => true
  | _ => false

/-- Whether an event is an insert attempt (successful or failed). -/
def LocEvent.isInsert : LocEvent → Bool
  | .insertOk _ => true
  | .insertFail _ => true
  | _ => false

/-- State threaded through phase 2: the `usedLocationIds` set, the target
`Location` table (as the list of inserted rows, in insertion order), the
`finalLocationId` stamps on first occurrences (keyed by their index in the
collected list), the `Location` entry of `idMappings`, the event trace, and
whether an insert failure has aborted the merge (the rethrown exception). -/
structure Phase2State where
  used : List Int
  target : List LocationRow
  finalIds : List (Nat × Int)
  mappings : List (Int × Int)
  trace : List LocEvent
  aborted : Bool
  deriving Repr

/-- The empty starting state of phase 2. -/
def phase2Init : Phase2State :=
  { used := [], target := [], finalIds := [], mappings := [], trace := [],
    aborted := false }

/-- The `while (usedLocationIds.has(newLocationId)) newLocationId++` search,
with fuel `used.length + 1` (enough to pass every used id). -/
def findFreeIdAux (used : List Int) : Nat → Int → Int
  | 0, id => id
  | fuel + 1, id => if used.contains id then findFreeIdAux used fuel (id + 1) else id

/-- Smallest id not in `used`, searching upward from `start`. -/
def findFreeId (used : List Int) (start : Int) : Int :=
  findFreeIdAux used (used.length + 1) start

/-- The final id chosen for a first occurrence: its original id when not
yet used, else the `while (usedLocationIds.has(newLocationId)) newLocationId++`
search upward from the original id. -/
def phase2FinalId (st : Phase2State) (info : LocInfo) : Int :=
  if st.used.contains info.originalLocationId then
    findFreeId st.used info.originalLocationId
  else info.originalLocationId

/-- The id a duplicate is mapped to: the JavaScript expression
`firstOccurrence.finalLocationId || firstOccurrence.originalLocationId`,
where `firstOccurrence = globalContentMap.get(s)` is the collected entry at
index `sigFirstIdx all s`.  A stamp of `0` is falsy and falls back to the
original id. -/
def phase2FirstOccurrenceId (all : List LocInfo) (st : Phase2State)
    (s : String) (fallback : LocInfo) : Int :=
  match List.lookup (sigFirstIdx all s) st.finalIds with
  | some v =>
    if v = 0 then ((all.get? (sigFirstIdx all s)).getD fallback).originalLocationId
    else v
  | none => ((all.get? (sigFirstIdx all s)).getD fallback).originalLocationId

/-- The duplicate branch of the phase-2 loop: record an id mapping to the
first occurrence's final id — only when the two ids differ — and skip the
insert. -/
def phase2RecordDuplicate (all : List LocInfo) (info : LocInfo)
    (st : Phase2State) : Phase2State :=
  if info.originalLocationId ≠
      phase2FirstOccurrenceId all st
        (createLocationConstraintSignature info.row) info then
    { st with
      mappings := mapSet st.mappings info.originalLocationId
        (phase2FirstOccurrenceId all st
          (createLocationConstraintSignature info.row) info),
      trace := st.trace ++ [.mapRecord info.originalLocationId
        (phase2FirstOccurrenceId all st
          (createLocationConstraintSignature info.row) info)] }
  else st

/-- The successful-insert bookkeeping of a first occurrence: mark the final
id used, append the adjusted row to the target, stamp the first occurrence,
and record an id mapping when the id was reassigned. -/
def phase2CommitInsert (i : Nat) (info : LocInfo) (st : Phase2State) :
    Phase2State :=
  if phase2FinalId st info ≠ info.originalLocationId then
    { used := phase2FinalId st info :: st.used,
      target := st.target ++ [{ info.row with locationId := phase2FinalId st info }],
      finalIds := (i, phase2FinalId st info) :: st.finalIds,
      mappings := mapSet st.mappings info.originalLocationId (phase2FinalId st info),
      trace := st.trace ++ [.insertOk (phase2FinalId st info),
        .mapRecord info.originalLocationId (phase2FinalId st info)],
      aborted := st.aborted }
  else
    { used := phase2FinalId st info :: st.used,
      target := st.target ++ [{ info.row with locationId := phase2FinalId st info }],
      finalIds := (i, phase2FinalId st info) :: st.finalIds,
      mappings := st.mappings,
      trace := st.trace ++ [.insertOk (phase2FinalId st info)],
      aborted := st.aborted }

/-- One iteration of the phase-2 loop for the `locationInfo` at index `i`
of the collected list `all`.  Duplicates (not the first occurrence of their
signature) record a mapping and are skipped; a first occurrence resolves
any id conflict and inserts, aborting the merge (the rethrown exception) if
the database rejects the row. -/
def phase2Step (all : List LocInfo) (insertOk : LocationRow → Bool) (i : Nat)
    (info : LocInfo) (st : Phase2State) : Phase2State :=
  if sigFirstIdx all (createLocationConstraintSignature info.row) ≠ i then
    phase2RecordDuplicate all info st
  else if insertOk { info.row with locationId := phase2FinalId st info } then
    phase2CommitInsert i info st
  else
    { st with trace := st.trace ++ [.insertFail (phase2FinalId st info)],
              aborted := true }

/-- The phase-2 loop from index `i` over the remaining `locationInfo`s.
Once `aborted` is set the loop stops (the source throws out of it). -/
def phase2From (all : List LocInfo) (insertOk : LocationRow → Bool) :
    Nat → List LocInfo → Phase2State → Phase2State
  | _, [], st => st
  | i, info :: rest, st =>
    if st.aborted then st
    else phase2From all insertOk (i + 1) rest (phase2Step all insertOk i info st)

/-- The whole `mergeLocationData` pipeline: collect all rows (phase 1),
then run phase 2 over them against an initially empty target. -/
def mergeLocationData (sources : List (List LocationRow))
    (insertOk : LocationRow → Bool) : Phase2State :=
  let all := collectAllLocations sources
  phase2From all insertOk 0 all phase2Init

/-! ## Foreign-key rewriting (`updateForeignKeyReferences`, lines 585-657)

Per foreign-key column, the worker first consults the `idMappings` entry of
the referenced table ("mappings always take priority"); absent a mapping it
checks whether the referenced id exists in the target and keeps the value
either way (a missing referent is only warned about as an orphan). -/

/-- Rewriting of one foreign-key value through the registry.  `mapping` is
the `idMappings` entry of the referenced table and `existsInTarget` the
point lookup `SELECT COUNT(*) ... WHERE <idColumn> = ?` on the target.
Foreign-key columns hold integers or `NULL`; a `NULL` is left untouched. -/
def rewriteForeignKeyValue (mapping : List (Int × Int))
    (existsInTarget : Int → Bool) : SqlValue → SqlValue
  | .null => .null
  | .int v =>
    match mapGet mapping v with
    | some newId => .int newId
    | none =>
      -- No mapping: keep the original id whether or not it exists in the
      -- target; a missing referent is merely logged as an orphaned reference.
      if existsInTarget v then .int v else .int v
  | .text s => .text s

/-! ## The bounded id search of `mergeTableData` (lines 881-939)

For GUID/composite-identity tables, an id conflict triggers a search from
the running `nextAvailableId`: `while (attempts < 1000)` check the candidate
with a point lookup, breaking at the first free id, else `newId++; attempts++`.
We give the loop its fuel `1000 - attempts` and count the point lookups. -/

/-- Result of the availability search: the candidate id the code proceeds
with, the final value of `attempts`, and how many point lookups ran. -/
structure IdSearchResult where
  newId : Int
  attempts : Nat
  lookups : Nat
  deriving DecidableEq, Repr

/-- Exhaustion test `attempts >= 1000` performed after the loop. -/
def IdSearchResult.exhausted (r : IdSearchResult) : Bool :=
  r.attempts ≥ 1000

/-- The `while (attempts < 1000)` loop body, with `fuel = 1000 - attempts`. -/
def findAvailableIdGo (occupied : Int → Bool) :
    Nat → Int → Nat → Nat → IdSearchResult
  | 0, newId, attempts, lookups => ⟨newId, attempts, lookups⟩
  | fuel + 1, newId, attempts, lookups =>
    if occupied newId then
      findAvailableIdGo occupied fuel (newId + 1) (attempts + 1) (lookups + 1)
    else ⟨newId, attempts, lookups + 1⟩

/-- The full search: at most 1,000 point lookups starting at `start`. -/
def findAvailableId (occupied : Int → Bool) (start : Int) : IdSearchResult :=
  findAvailableIdGo occupied 1000 start 0 0

/-- Outcome of the id-conflict resolution step for a GUID/composite table
row.  `fatalError` records whether the step raised any abort: the source
only writes a `console.error` on exhaustion and falls through, so no code
path sets it. -/
structure GuidConflictOutcome where
  adjustedId : Int
  pending : Option (Int × Int)
  nextAvailableId : Int
  exhausted : Bool
  fatalError : Option String
  deriving DecidableEq, Repr

/-- The id-conflict resolution of `mergeTableData` for GUID/composite
tables: if the row's original id is occupied, run the bounded search from
`nextAvail`, stash the pending mapping, and continue with the candidate id
regardless of exhaustion; otherwise keep the original id. -/
def resolveGuidIdConflict (occupied : Int → Bool) (originalId nextAvail : Int) :
    GuidConflictOutcome :=
  if occupied originalId then
    let r := findAvailableId occupied nextAvail
    { adjustedId := r.newId, pending := some (originalId, r.newId),
      nextAvailableId := r.newId + 1, exhausted := r.exhausted,
      fatalError := none }
  else
    { adjustedId := originalId, pending := none, nextAvailableId := nextAvail,
      exhausted := false, fatalError := none }

/-! ## Concrete scenario for the three-source `1076` claim -/

/-- A Bible-chapter `Location` row as in scenario S6: `Type = 0`,
`KeySymbol = 'nwt'`, `MepsLanguage = 0`, with the given id, book and
chapter. -/
def bibleLocRow (id book chap : Int) : LocationRow :=
  { locationId := id, bookNumber := .int book, chapterNumber := .int chap,
    documentId := .null, track := .null, issueTagNumber := .null,
    keySymbol := .text "nwt", mepsLanguage := .int 0, type := .int 0,
    title := .null }

/-- Three sources, each holding `LocationId = 1076` for a different
chapter (chapters 1, 2 and 3 of book 1). -/
def c1Sources : List (List LocationRow) :=
  [[bibleLocRow 1076 1 1], [bibleLocRow 1076 1 2], [bibleLocRow 1076 1 3]]

/-- The state `mergeLocationData` leaves for the three-source scenario. -/
def c1Merged : Phase2State := mergeLocationData c1Sources (fun _ => true)

/-- C1.  In the three-source `1076` scenario the target does get three
distinct rows `1076, 1077, 1078`, but the registry ends with a SINGLE
mapping `1076 → 1078`: `trackIdMapping` writes into one global map keyed
only by the original id, so source C's reassignment overwrites source B's
`1076 → 1077`.  Consequently `updateForeignKeyReferences` rewrites
`LocationId = 1076` to `1078` for Marks from EVERY source — a Mark from
source A, whose own `1076` was chapter 1 (and still is chapter 1 in the
target), is repointed at the row holding chapter 3.  This refutes the
claim's "exactly two registry mappings" and "no Mark ends up with a
LocationId that denotes a different chapter". -/
theorem claim_C1_cross_source_mapping_clobbered :
    c1Merged.target.map (fun r => r.locationId) = [1076, 1077, 1078]
    ∧ c1Merged.mappings = [(1076, 1078)]
    ∧ c1Merged.mappings.length = 1
    ∧ rewriteForeignKeyValue c1Merged.mappings
        (fun id => c1Merged.target.any (fun r => r.locationId == id))
        (.int 1076) = .int 1078
    ∧ (c1Merged.target.filter (fun r => r.locationId == 1076)).map
        (fun r => r.chapterNumber) = [.int 1]
    ∧ (c1Merged.target.filter (fun r => r.locationId == 1078)).map
        (fun r => r.chapterNumber) = [.int 3]
    ∧ (c1Sources.headD []).map (fun r => (r.locationId, r.chapterNumber))
        = [(1076, .int 1)] := by
  decide

/-! ## Invariants of phase 2 -/

/-- The signature of a row does not depend on its primary key, so the id
substitution of phase 2 preserves it. -/
theorem sig_set_locationId (r : LocationRow) (v : Int) :
    createLocationConstraintSignature { r with locationId := v }
      = createLocationConstraintSignature r := rfl

/-- The duplicate branch never touches the target table. -/
theorem phase2RecordDuplicate_target (all : List LocInfo) (info : LocInfo)
    (st : Phase2State) :
    (phase2RecordDuplicate all info st).target = st.target := by
  unfold phase2RecordDuplicate
  split <;> rfl

/-- The commit of a first occurrence appends exactly the adjusted row. -/
theorem phase2CommitInsert_target (i : Nat) (info : LocInfo) (st : Phase2State) :
    (phase2CommitInsert i info st).target
      = st.target ++ [{ info.row with locationId := phase2FinalId st info }] := by
  unfold phase2CommitInsert
  split <;> rfl

/-- One phase-2 step keeps the target's signatures pairwise distinct and
bounded by the processed prefix: every target row's signature has its first
occurrence strictly before the next index. -/
theorem phase2Step_sig_inv (all : List LocInfo) (insertOk : LocationRow → Bool)
    (i : Nat) (info : LocInfo) (st : Phase2State)
    (hnd : (st.target.map createLocationConstraintSignature).Nodup)
    (hlt : ∀ r ∈ st.target,
      sigFirstIdx all (createLocationConstraintSignature r) < i) :
    ((phase2Step all insertOk i info st).target.map
        createLocationConstraintSignature).Nodup
    ∧ ∀ r ∈ (phase2Step all insertOk i info st).target,
        sigFirstIdx all (createLocationConstraintSignature r) < i + 1 := by
  unfold phase2Step
  split
  · -- duplicate branch: the target is unchanged
    rw [phase2RecordDuplicate_target]
    exact ⟨hnd, fun r hr => Nat.lt_succ_of_lt (hlt r hr)⟩
  · rename_i hfirst
    rw [not_not] at hfirst
    split
    · -- the insert succeeded: the new row's signature is fresh
      rw [phase2CommitInsert_target]
      have hfresh : createLocationConstraintSignature info.row
          ∉ st.target.map createLocationConstraintSignature := by
        intro hmem
        rcases List.mem_map.1 hmem with ⟨r, hr, hsig⟩
        have := hlt r hr
        rw [hsig, hfirst] at this
        exact Nat.lt_irrefl i this
      constructor
      · rw [List.map_append, List.nodup_append]
        refine ⟨hnd, List.nodup_singleton _, ?_⟩
        intro s hs hs'
        simp only [List.map_cons, List.map_nil, List.mem_singleton,
          sig_set_locationId] at hs'
        subst hs'
        exact hfresh hs
      · intro r hr
        rcases List.mem_append.1 hr with hr | hr
        · exact Nat.lt_succ_of_lt (hlt r hr)
        · simp only [List.mem_singleton] at hr
          subst hr
          rw [sig_set_locationId, hfirst]
          exact Nat.lt_succ_self i
    · -- the insert failed: the target is unchanged
      exact ⟨hnd, fun r hr => Nat.lt_succ_of_lt (hlt r hr)⟩

/-- The phase-2 loop preserves distinctness of the target's signatures. -/
theorem phase2From_sig_nodup (all : List LocInfo) (insertOk : LocationRow → Bool) :
    ∀ (l : List LocInfo) (i : Nat) (st : Phase2State),
      (st.target.map createLocationConstraintSignature).Nodup →
      (∀ r ∈ st.target,
        sigFirstIdx all (createLocationConstraintSignature r) < i) →
      ((phase2From all insertOk i l st).target.map
          createLocationConstraintSignature).Nodup
  | [], i, st, hnd, _ => hnd
  | info :: rest, i, st, hnd, hlt => by
    unfold phase2From
    split
    · exact hnd
    · obtain ⟨hnd', hlt'⟩ := phase2Step_sig_inv all insertOk i info st hnd hlt
      exact phase2From_sig_nodup all insertOk rest (i + 1) _ hnd' hlt'

/-- After `mergeLocationData`, the signatures of the rows inserted into the
target are pairwise distinct, for every list of sources and every database
acceptance behaviour. -/
theorem mergeLocationData_sig_nodup (sources : List (List LocationRow))
    (insertOk : LocationRow → Bool) :
    ((mergeLocationData sources insertOk).target.map
      createLocationConstraintSignature).Nodup := by
  refine phase2From_sig_nodup _ insertOk _ 0 phase2Init List.nodup_nil ?_
  intro r hr
  simp [phase2Init] at hr

/-- C4.  After a completed Location merge no two target rows share a
constraint signature: the list of signatures of the inserted rows is
duplicate-free, whatever the sources and whatever rows the database
accepts. -/
theorem claim_C4_location_identity_unique (sources : List (List LocationRow))
    (insertOk : LocationRow → Bool) :
    ((mergeLocationData sources insertOk).target.map
      createLocationConstraintSignature).Nodup :=
  mergeLocationData_sig_nodup sources insertOk

/-- Auxiliary: if the images of a list under `f` are pairwise distinct, at
most one element maps to any given string. -/
theorem countP_le_one_of_nodup_map {α : Type} (f : α → String) :
    ∀ l : List α, (l.map f).Nodup →
      ∀ s : String, l.countP (fun a => f a == s) ≤ 1
  | [], _, s => by simp
  | a :: l, hnd, s => by
    rw [List.map_cons, List.nodup_cons] at hnd
    obtain ⟨hna, hnd⟩ := hnd
    rw [List.countP_cons]
    by_cases h : f a = s
    · have hz : l.countP (fun a => f a == s) = 0 := by
        rw [List.countP_eq_zero]
        intro b hb
        simp only [beq_iff_eq]
        intro hbs
        exact hna (hbs.trans h.symm ▸ List.mem_map_of_mem f hb)
      simp [hz, h]
    · have ih := countP_le_one_of_nodup_map f l hnd s
      simp only [beq_iff_eq, h, if_false]
      simpa using ih

/-- C8.  `MepsLanguage` null and 0 are interchangeable: two rows identical
except for `MepsLanguage = NULL` versus `MepsLanguage = 0` get the same
constraint signature, and in any merged target at most one row carries that
signature, so the two rows collapse to a single target row. -/
theorem claim_C8_mepslanguage_null_zero_collapse (r : LocationRow)
    (sources : List (List LocationRow)) (insertOk : LocationRow → Bool) :
    createLocationConstraintSignature { r with mepsLanguage := .null }
        = createLocationConstraintSignature { r with mepsLanguage := .int 0 }
    ∧ (mergeLocationData sources insertOk).target.countP
        (fun t => createLocationConstraintSignature t ==
          createLocationConstraintSignature { r with mepsLanguage := .null }) ≤ 1 :=
  ⟨rfl, countP_le_one_of_nodup_map createLocationConstraintSignature _
    (mergeLocationData_sig_nodup sources insertOk) _⟩

/-! ## Phase-2 trace facts (for the read-back claim) -/

/-- The duplicate branch never aborts on its own. -/
theorem phase2RecordDuplicate_aborted (all : List LocInfo) (info : LocInfo)
    (st : Phase2State) :
    (phase2RecordDuplicate all info st).aborted = st.aborted := by
  unfold phase2RecordDuplicate
  split <;> rfl

/-- The successful-insert bookkeeping never aborts. -/
theorem phase2CommitInsert_aborted (i : Nat) (info : LocInfo) (st : Phase2State) :
    (phase2CommitInsert i info st).aborted = st.aborted := by
  unfold phase2CommitInsert
  split <;> rfl

/-- The duplicate branch emits no read-back event. -/
theorem phase2RecordDuplicate_trace_noReadBack (all : List LocInfo)
    (info : LocInfo) (st : Phase2State)
    (h : st.trace.all (fun e => !e.isReadBack) = true) :
    (phase2RecordDuplicate all info st).trace.all (fun e => !e.isReadBack) = true := by
  unfold phase2RecordDuplicate
  split
  · simp only [List.all_append, h, Bool.true_and]
    rfl
  · exact h

/-- The successful-insert bookkeeping emits no read-back event. -/
theorem phase2CommitInsert_trace_noReadBack (i : Nat) (info : LocInfo)
    (st : Phase2State)
    (h : st.trace.all (fun e => !e.isReadBack) = true) :
    (phase2CommitInsert i info st).trace.all (fun e => !e.isReadBack) = true := by
  unfold phase2CommitInsert
  split
  · simp only [List.all_append, h, Bool.true_and]
    rfl
  · simp only [List.all_append, h, Bool.true_and]
    rfl

/-- One phase-2 step, run from a non-aborted state, emits no read-back
event, and whenever it aborts the trace ends with the failed insert — so
nothing (in particular no id mapping) is recorded for a failed insert. -/
theorem phase2Step_trace_inv (all : List LocInfo) (insertOk : LocationRow → Bool)
    (i : Nat) (info : LocInfo) (st : Phase2State)
    (hab : st.aborted = false)
    (htr : st.trace.all (fun e => !e.isReadBack) = true) :
    ((phase2Step all insertOk i info st).trace.all (fun e => !e.isReadBack)) = true
    ∧ ((phase2Step all insertOk i info st).aborted = true →
        ∃ id, (phase2Step all insertOk i info st).trace.getLast?
          = some (.insertFail id)) := by
  unfold phase2Step
  split
  · refine ⟨phase2RecordDuplicate_trace_noReadBack all info st htr, ?_⟩
    rw [phase2RecordDuplicate_aborted, hab]
    intro h
    exact absurd h (by simp)
  · split
    · refine ⟨phase2CommitInsert_trace_noReadBack i info st htr, ?_⟩
      rw [phase2CommitInsert_aborted, hab]
      intro h
      exact absurd h (by simp)
    · refine ⟨?_, ?_⟩
      · simp only [List.all_append, htr, Bool.true_and]
        rfl
      · intro _
        exact ⟨phase2FinalId st info, by simp⟩

/-- The phase-2 loop emits no read-back event, and whenever it ends aborted
the trace ends with the failed insert. -/
theorem phase2From_trace_inv (all : List LocInfo) (insertOk : LocationRow → Bool) :
    ∀ (l : List LocInfo) (i : Nat) (st : Phase2State),
      st.trace.all (fun e => !e.isReadBack) = true →
      (st.aborted = true →
        ∃ id, st.trace.getLast? = some (.insertFail id)) →
      ((phase2From all insertOk i l st).trace.all (fun e => !e.isReadBack)) = true
      ∧ ((phase2From all insertOk i l st).aborted = true →
          ∃ id, (phase2From all insertOk i l st).trace.getLast?
            = some (.insertFail id))
  | [], i, st, htr, habo => ⟨htr, habo⟩
  | info :: rest, i, st, htr, habo => by
    unfold phase2From
    split
    · exact ⟨htr, habo⟩
    · rename_i hab
      rw [Bool.not_eq_true] at hab
      obtain ⟨htr', habo'⟩ := phase2Step_trace_inv all insertOk i info st hab htr
      exact phase2From_trace_inv all insertOk rest (i + 1) _ htr' habo'

/-- The single-row, accepting-database run used to exhibit phase 2's trace. -/
def c3Demo : Phase2State := mergeLocationData [[bibleLocRow 1076 1 1]] (fun _ => true)

/-- C3 counterexample.  A concrete phase-2 run performs a first-occurrence
insert but never issues a read-back query on the target: the claim that
"every first-occurrence insert is verified by reading the inserted id back"
is false of `mergeLocationData`, whose insert path contains no read-back. -/
theorem claim_C3_counterexample :
    c3Demo.trace = [.insertOk 1076]
    ∧ (c3Demo.trace.any (fun e => e.isInsert)) = true
    ∧ (c3Demo.trace.any (fun e => e.isReadBack)) = false := by
  decide

/-- C3 amended.  Phase 2 performs no read-back verification at all; an
insert failure instead surfaces as a thrown SQL error that aborts the
Location merge, and nothing further — in particular no registry mapping
for the failed row — is recorded after the failed insert: whenever the run
ends aborted, its trace ends exactly at the failed insert event. -/
theorem claim_C3_no_readback_failure_aborts (sources : List (List LocationRow))
    (insertOk : LocationRow → Bool) :
    ((mergeLocationData sources insertOk).trace.all (fun e => !e.isReadBack)) = true
    ∧ ((mergeLocationData sources insertOk).aborted = true →
        ∃ id, (mergeLocationData sources insertOk).trace.getLast?
          = some (.insertFail id)) := by
  refine phase2From_trace_inv _ insertOk _ 0 phase2Init rfl ?_
  intro h
  exact absurd h (by simp [phase2Init])

/-- C3 witness.  A rejecting database on the single-row input aborts the
run with the trace ending at the failed insert. -/
theorem claim_C3_witness :
    (mergeLocationData [[bibleLocRow 1076 1 1]] (fun _ => false)).aborted = true
    ∧ ∃ id, (mergeLocationData [[bibleLocRow 1076 1 1]] (fun _ => false)).trace.getLast?
        = some (.insertFail id) :=
  ⟨by decide,
    (claim_C3_no_readback_failure_aborts [[bibleLocRow 1076 1 1]] (fun _ => false)).2
      (by decide)⟩

/-! ## Generic merge of the `UserMark` table (`mergeTableData`, lines 799-1391)

For `UserMark` (a GUID table) each source row passes through, in order:
the id-conflict resolution against the target (lines 881-939), the
GUID-duplicate check that skips the row entirely (lines 948-967), the
foreign-key rewrite (line 1180), the `INSERT OR IGNORE` and the read-back
verification that commits the pending id mapping (lines 1272-1342).
The columns consulted are the primary key, `UserMarkGuid` and the
`LocationId` foreign key. -/

/-- A `UserMark` row restricted to the columns the merge logic consults. -/
structure UserMarkRow where
  userMarkId : Int
  userMarkGuid : String
  locationId : SqlValue
  deriving DecidableEq, Repr

/-- State threaded through the `UserMark` merge: the target table, the
`UserMark` entry of `idMappings`, and the running `nextAvailableId`. -/
structure UserMarkMergeState where
  target : List UserMarkRow
  mappings : List (Int × Int)
  nextAvailableId : Int
  deriving DecidableEq, Repr

/-- Processing of one source `UserMark` row by `mergeTableData`.
`locMappings` is the `Location` entry of `idMappings` (fully populated by
the earlier Location merge) and `locExists` the point lookup on the target
`Location` table. -/
def mergeUserMarkRow (locMappings : List (Int × Int)) (locExists : Int → Bool)
    (st : UserMarkMergeState) (row : UserMarkRow) : UserMarkMergeState :=
  -- Id-conflict resolution for GUID/composite tables (lines 881-939):
  let conflictOutcome := resolveGuidIdConflict
    (fun id => st.target.any (fun t => t.userMarkId == id))
    row.userMarkId st.nextAvailableId
  let adjusted : UserMarkRow := { row with userMarkId := conflictOutcome.adjustedId }
  -- GUID-duplicate check (lines 948-967): an existing `UserMarkGuid`
  -- skips the row entirely, recording NO id mapping.
  if st.target.any (fun t => t.userMarkGuid == row.userMarkGuid) then
    { st with nextAvailableId := conflictOutcome.nextAvailableId }
  else
    -- Foreign-key rewrite (line 1180):
    let adjusted2 : UserMarkRow :=
      { adjusted with locationId :=
          rewriteForeignKeyValue locMappings locExists adjusted.locationId }
    -- `INSERT OR IGNORE` (line 1272): a row violating the primary-key or
    -- GUID uniqueness of the target is silently dropped.
    let target2 :=
      if st.target.any (fun t => t.userMarkId == adjusted2.userMarkId
          || t.userMarkGuid == adjusted2.userMarkGuid) then st.target
      else st.target ++ [adjusted2]
    -- Read-back verification by primary key (lines 1275-1342): the pending
    -- id mapping is committed only when a row with the id is present.
    let verified := target2.any (fun t => t.userMarkId == adjusted2.userMarkId)
    { target := target2,
      mappings :=
        match conflictOutcome.pending with
        | some p => if verified then mapSet st.mappings p.1 p.2 else st.mappings
        | none => st.mappings,
      nextAvailableId := conflictOutcome.nextAvailableId }

/-- The `UserMark` table merge over all sources.  `nextAvailableId` starts
at `MAX(UserMarkId) + 1` of the initially empty target, i.e. `1`. -/
def mergeUserMarkTables (locMappings : List (Int × Int)) (locExists : Int → Bool)
    (sources : List (List UserMarkRow)) : UserMarkMergeState :=
  sources.foldl (fun st rows => rows.foldl (mergeUserMarkRow locMappings locExists) st)
    { target := [], mappings := [], nextAvailableId := 1 }

/-- Scenario S4: sources A and B both hold a Mark with the same
`MarkGuid` but different ids (`16311` in A, `42000` in B). -/
def c2Sources : List (List UserMarkRow) :=
  [[{ userMarkId := 16311, userMarkGuid := "32C01C72-4C08-4B84-9B2D-000000000001",
      locationId := .int 1076 }],
   [{ userMarkId := 42000, userMarkGuid := "32C01C72-4C08-4B84-9B2D-000000000001",
      locationId := .int 1076 }]]

/-- The state the `UserMark` merge leaves for scenario S4, with no
Location remappings in play. -/
def c2Merged : UserMarkMergeState :=
  mergeUserMarkTables [] (fun _ => true) c2Sources

/-- C2.  When the GUID-duplicate check skips B's Mark `42000` (its
`MarkGuid` already exists as target id `16311`), NO registry mapping
`(UserMark, 42000) → 16311` is recorded — the skip branch for `UserMark`
(and likewise `Note`) omits the `trackIdMapping` call its sibling branches
for `Tag`, `PlaylistItem`, `IndependentMedia` and `PlaylistItemAccuracy`
make.  A Note from B referencing `42000` is therefore NOT rewritten to
`16311`: `updateForeignKeyReferences` finds no mapping and no target row
`42000`, and keeps the dangling `42000` as an orphaned reference. -/
theorem claim_C2_skipped_mark_mapping_missing :
    c2Merged.target.map (fun t => t.userMarkId) = [16311]
    ∧ c2Merged.mappings = []
    ∧ rewriteForeignKeyValue c2Merged.mappings
        (fun id => c2Merged.target.any (fun t => t.userMarkId == id))
        (.int 42000) = .int 42000 := by
  decide

/-! ## The canonical-stringification claim -/

/-- A publication `Location` row whose `IssueTagNumber`, `DocumentId` and
`Track` are all the integer `0` (and `Type = 1`). -/
def c7Row : LocationRow :=
  { locationId := 17, bookNumber := .null, chapterNumber := .null,
    documentId := .int 0, track := .int 0, issueTagNumber := .int 0,
    keySymbol := .text "w", mepsLanguage := .int 0, type := .int 1,
    title := .null }

/-- C7.  `createLocationConstraintSignature` renders a value of `0` in
`IssueTagNumber`, `DocumentId`, `Track` — and `Type`, as every
Bible-chapter row shows — as `"NULL"`, because the JavaScript `v || 'NULL'`
treats `0` as falsy.  The validator's SQL in `validateMergeIntegrity`
renders the same row's zeros as `"0"` (`COALESCE` only maps genuine
`NULL`s), so the two signature computations in the same file disagree;
the claimed rendering `"0"` is the validator's, not the merge function's. -/
theorem claim_C7_zero_rendered_as_null :
    createLocationConstraintSignature c7Row = "w|NULL|0|NULL|NULL|1"
    ∧ validatorConstraintSignature c7Row = some "w|0|0|0|0|1"
    ∧ createLocationConstraintSignature c7Row ≠ "w|0|0|0|0|1"
    ∧ createLocationConstraintSignature (bibleLocRow 1076 1 1) = "1|1|nwt|0|NULL"
    ∧ validatorConstraintSignature (bibleLocRow 1076 1 1) = some "1|1|nwt|0|0" := by
  decide

/-! ## Configuration gating (`shouldIncludeDataType`, lines 355-379)

`processMerge` calls `mergeLocationData` or `mergeTableData` for a table
exactly when `shouldIncludeDataType` returns true for it (lines 224-251),
so this predicate is the whole configuration mask. -/

/-- The `globalDataTypes` configuration flags. -/
structure GlobalDataTypes where
  notes : Bool
  bookmarks : Bool
  highlights : Bool
  tags : Bool
  inputfields : Bool
  playlists : Bool
  deriving DecidableEq, Repr

/-- Lookup of `mergeConfig.globalDataTypes[dataTypeId]`; an id absent from
the object reads as `undefined`, i.e. falsy. -/
def dataTypeEnabled (g : GlobalDataTypes) (dataTypeId : String) : Bool :=
  match dataTypeId with
  | "notes" => g.notes
  | "bookmarks" => g.bookmarks
  | "highlights" => g.highlights
  | "tags" => g.tags
  | "inputfields" => g.inputfields
  | "playlists" => g.playlists
  | _ => false

/-- The `tableMap` literal of `shouldIncludeDataType`: the ONLY tables
mapped to a data-type flag.  Note `BlockRange` and `Tag` are absent. -/
def tableMap : String → Option String := fun tableName =>
  match tableName with
  | "Note" => some "notes"
  | "Bookmark" => some "bookmarks"
  | "UserMark" => some "highlights"
  | "TagMap" => some "tags"
  | "InputField" => some "inputfields"
  | "Playlist" => some "playlists"
  | _ => none

/-- Embedding of `shouldIncludeDataType`: tables without a mapped data type
are included by default, as is everything when `globalDataTypes` is absent. -/
def shouldIncludeDataType (tableName : String)
    (globalDataTypes : Option GlobalDataTypes) : Bool :=
  match tableMap tableName with
  | none => true
  | some dataTypeId =>
    match globalDataTypes with
    | none => true
    | some g => dataTypeEnabled g dataTypeId

/-- A configuration with only the highlights flag disabled. -/
def c5HighlightsOff : GlobalDataTypes :=
  { notes := true, bookmarks := true, highlights := false, tags := true,
    inputfields := true, playlists := true }

/-- A configuration with only the tags flag disabled. -/
def c5TagsOff : GlobalDataTypes :=
  { notes := true, bookmarks := true, highlights := true, tags := false,
    inputfields := true, playlists := true }

/-- C5 counterexample.  With the highlights flag disabled, `BlockRange` is
still included (it is not in `tableMap`), so its rows are merged; likewise
`Tag` is included with the tags flag disabled.  This refutes the claimed
gating of `BlockRange` by highlights and of `Tag` by tags. -/
theorem claim_C5_counterexample :
    shouldIncludeDataType "BlockRange" (some c5HighlightsOff) = true
    ∧ shouldIncludeDataType "UserMark" (some c5HighlightsOff) = false
    ∧ shouldIncludeDataType "Tag" (some c5TagsOff) = true
    ∧ shouldIncludeDataType "TagMap" (some c5TagsOff) = false := by
  decide

/-- C5 amended.  The mask gates exactly `Note` by notes, `Bookmark` by
bookmarks, `UserMark` by highlights, `TagMap` by tags and `InputField` by
inputfields; `BlockRange` and `Tag` are merged regardless of the highlights
and tags flags, and the infrastructural tables `Location`, `LastModified`
and `grdb_migrations` (the schema-version table) are always merged, as is
everything when no configuration is given. -/
theorem claim_C5_actual_gating (g : GlobalDataTypes) :
    shouldIncludeDataType "Note" (some g) = g.notes
    ∧ shouldIncludeDataType "Bookmark" (some g) = g.bookmarks
    ∧ shouldIncludeDataType "UserMark" (some g) = g.highlights
    ∧ shouldIncludeDataType "TagMap" (some g) = g.tags
    ∧ shouldIncludeDataType "InputField" (some g) = g.inputfields
    ∧ shouldIncludeDataType "BlockRange" (some g) = true
    ∧ shouldIncludeDataType "Tag" (some g) = true
    ∧ shouldIncludeDataType "Location" (some g) = true
    ∧ shouldIncludeDataType "LastModified" (some g) = true
    ∧ shouldIncludeDataType "grdb_migrations" (some g) = true
    ∧ shouldIncludeDataType "BlockRange" none = true :=
  ⟨rfl, rfl, rfl, rfl, rfl, rfl, rfl, rfl, rfl, rfl, rfl⟩

/-! ## Media merge (`mergeMediaFiles`, lines 35-77)

Entries are processed source by source, entry by entry.  A content hash
(SHA-256) decides deduplication; we abstract the hash injectively as the
content itself (the claim concerns entries with DIFFERENT hashes, for
which the abstraction is exact).  `mediaFiles` is a JavaScript `Map`
from entry name to bytes: `set` on an existing name overwrites the stored
bytes in place. -/

/-- JavaScript `Map.set` on a name-keyed map: an existing key keeps its
position but gets the new value, a new key is appended. -/
def mediaMapSet (m : List (String × Nat)) (k : String) (v : Nat) :
    List (String × Nat) :=
  if m.any (fun p => p.1 == k) then
    m.map (fun p => if p.1 == k then (k, v) else p)
  else m ++ [(k, v)]

/-- The entry loop of `mergeMediaFiles` over one source's entries:
an unseen content hash is recorded and the entry `set` into the map
(overwriting any same-named entry); a seen hash is dropped. -/
def mergeMediaGo : List (String × Nat) → List (String × Nat) × List Nat →
    List (String × Nat) × List Nat
  | [], st => st
  | (entryName, content) :: rest, (mediaFiles, seenHashes) =>
    if seenHashes.contains content then
      mergeMediaGo rest (mediaFiles, seenHashes)
    else
      mergeMediaGo rest (mediaMapSet mediaFiles entryName content,
        content :: seenHashes)

/-- The whole media merge: sources in order, entries in order, starting
from an empty map and an empty hash set. -/
def mergeMediaFiles (sources : List (List (String × Nat))) :
    List (String × Nat) :=
  (sources.foldl (fun st entries => mergeMediaGo entries st) ([], [])).1

/-- C6 counterexample.  Two sources share the entry name `"a"` with
different contents `1` and `2`; after the merge the name holds the SECOND
content, refuting the claim that the first-processed entry's bytes
survive. -/
theorem claim_C6_counterexample :
    List.lookup "a" (mergeMediaFiles [[("a", 1)], [("a", 2)]]) = some 2
    ∧ ¬ List.lookup "a" (mergeMediaFiles [[("a", 1)], [("a", 2)]]) = some 1 := by
  decide

/-- C6 amended.  When two entries from different sources share a name but
carry different contents (hence different hashes), `Map.set` overwrites:
the LATER entry's bytes survive under the name and the earlier entry's
bytes are dropped. -/
theorem claim_C6_last_writer_wins (n : String) (c1 c2 : Nat) (h : c1 ≠ c2) :
    List.lookup n (mergeMediaFiles [[(n, c1)], [(n, c2)]]) = some c2 := by
  have hc : ¬ (c2 = c1) := fun hh => h hh.symm
  simp [mergeMediaFiles, mergeMediaGo, mediaMapSet, List.lookup, hc]

/-- C6 witness. -/
theorem claim_C6_witness :
    List.lookup "a" (mergeMediaFiles [[("a", 7)], [("a", 9)]]) = some 9 :=
  claim_C6_last_writer_wins "a" 7 9 (by decide)

/-! ## The 1,000-attempt bound -/

/-- An occupancy predicate under which every id up to 2000 is taken. -/
def c9Occupied : Int → Bool := fun id => decide (id ≤ 2000)

set_option maxRecDepth 4000 in
/-- C9 counterexample.  Resolving a conflict for original id `5` with the
running counter at `1`, when ids `1..2000` are all occupied: all 1,000
attempts are exhausted, yet no failure is raised (`fatalError = none`) and
the step proceeds with candidate id `1001` — an id that is STILL occupied
— toward the `INSERT OR IGNORE`.  This refutes "reported as MergeConflict,
and the row is not inserted under a still-conflicting id". -/
theorem claim_C9_counterexample :
    (resolveGuidIdConflict c9Occupied 5 1).exhausted = true
    ∧ (resolveGuidIdConflict c9Occupied 5 1).fatalError = none
    ∧ (resolveGuidIdConflict c9Occupied 5 1).adjustedId = 1001
    ∧ c9Occupied (resolveGuidIdConflict c9Occupied 5 1).adjustedId = true := by
  decide

/-- The search loop performs at most `lookups + fuel` point lookups. -/
theorem findAvailableIdGo_lookups (occupied : Int → Bool) :
    ∀ (fuel : Nat) (newId : Int) (attempts lookups : Nat),
      (findAvailableIdGo occupied fuel newId attempts lookups).lookups
        ≤ lookups + fuel
  | 0, newId, attempts, lookups => Nat.le_refl _
  | fuel + 1, newId, attempts, lookups => by
    unfold findAvailableIdGo
    split
    · have := findAvailableIdGo_lookups occupied fuel (newId + 1)
        (attempts + 1) (lookups + 1)
      omega
    · show lookups + 1 ≤ lookups + (fuel + 1)
      omega

/-- C9 amended.  The availability search is bounded: it performs at most
1,000 point lookups.  On exhaustion, however, the code merely logs an
error and continues — `resolveGuidIdConflict` raises no failure on any
input, and the row proceeds with the last (unverified) candidate id to the
`INSERT OR IGNORE`, which silently drops it if the id still conflicts. -/
theorem claim_C9_bounded_search_no_abort (occupied : Int → Bool)
    (originalId nextAvail : Int) :
    (findAvailableId occupied nextAvail).lookups ≤ 1000
    ∧ (resolveGuidIdConflict occupied originalId nextAvail).fatalError = none := by
  constructor
  · have := findAvailableIdGo_lookups occupied 1000 nextAvail 0 0
    simpa [findAvailableId] using this
  · unfold resolveGuidIdConflict
    split <;> rfl

/-! ## Input validation of the client-side merge
(`JWLMerger.mergeFilesClientSide`, merge-logic.ts lines 54-90)

The function first rejects fewer than two files, then filters out files
with no enabled data type, and rejects only when NO file remains; the
surviving `validFiles` are what the merge proceeds with (the subsequent
capability probing and worker hand-off consume `validFiles` unchanged). -/

/-- A managed file: its name and the `enabled` flags of its data types. -/
structure ManagedFile where
  name : String
  dataTypes : List Bool
  deriving DecidableEq, Repr

/-- The two rejection cases of the validation stage. -/
inductive MergeValidationError where
  | tooFewFiles
  | noEnabledDataTypes
  deriving DecidableEq, Repr

/-- The filter predicate `file.dataTypes.some(dt => dt.enabled)`. -/
def hasEnabledDataType (f : ManagedFile) : Bool :=
  f.dataTypes.any (fun dt => dt)

/-- The validation stage of `mergeFilesClientSide`: the two-file minimum is
checked on the RAW input, then the enabled-data-type filter runs, and only
an empty filtered list is rejected; otherwise the merge proceeds with the
filtered files. -/
def mergeFilesClientSide (managedFiles : List ManagedFile) :
    Except MergeValidationError (List ManagedFile) :=
  if managedFiles.length < 2 then .error .tooFewFiles
  else if (managedFiles.filter hasEnabledDataType).length = 0 then
    .error .noEnabledDataTypes
  else .ok (managedFiles.filter hasEnabledDataType)

/-- C10.  For exactly two files of which only the first has an enabled
data type, the merge is not rejected and proceeds with the single
remaining file; and the `noEnabledDataTypes` rejection occurs exactly when
at least two files were supplied but none survives the filter. -/
theorem claim_C10_min_check_before_filter (f g : ManagedFile)
    (hf : hasEnabledDataType f = true) (hg : hasEnabledDataType g = false) :
    mergeFilesClientSide [f, g] = .ok [f]
    ∧ ∀ files : List ManagedFile,
        (mergeFilesClientSide files = .error .noEnabledDataTypes
          ↔ 2 ≤ files.length ∧ files.filter hasEnabledDataType = []) := by
  constructor
  · simp [mergeFilesClientSide, List.filter, hf, hg]
  · intro files
    unfold mergeFilesClientSide
    by_cases h2 : files.length < 2
    · rw [if_pos h2]
      constructor
      · intro h
        simp at h
      · intro hconj
        exact absurd hconj.1 (by omega)
    · rw [if_neg h2]
      by_cases h0 : (files.filter hasEnabledDataType).length = 0
      · rw [if_pos h0]
        rw [List.length_eq_zero] at h0
        exact ⟨fun _ => ⟨by omega, h0⟩, fun _ => rfl⟩
      · rw [if_neg h0]
        constructor
        · intro h
          simp at h
        · intro hconj
          exact absurd (by simp [hconj.2]) h0

/-- C10 witness. -/
theorem claim_C10_witness :
    mergeFilesClientSide
        [⟨"a.jwlibrary", [true]⟩, ⟨"b.jwlibrary", [false]⟩]
      = .ok [⟨"a.jwlibrary", [true]⟩] :=
  (claim_C10_min_check_before_filter ⟨"a.jwlibrary", [true]⟩
    ⟨"b.jwlibrary", [false]⟩ (by decide) (by decide)).1

end JwlMerge
